import Mathlib

/-!
Verification development for the titration-animation repository.

The chemistry/state model of the program is embedded shallowly:
the pH computation performed inside TitrationAnimation.update_animation
(main.py), the droplet tick loop, reset_animation, set_parameters,
get_solution_color, and the simplified TitrationSimulation model
(simulation.py).  Python floats are modelled by real numbers; the calls
math.log10 and math.sqrt, which raise ValueError on arguments outside
their domain, are modelled as Option-valued functions, so a computation
that would raise in Python evaluates to none here.  Purely cosmetic
state (splash particles, rotation, mouse position, widget styling) is
not part of the model.
-/

namespace Titration

/-- Constant Ka hardcoded in update_animation (weak acid, acetic acid). -/
noncomputable def Ka : ℝ := 1.8e-5

/-- Constant Kb hardcoded in update_animation (weak base, ammonia). -/
noncomputable def Kb : ℝ := 1.8e-5

/-- Log-singularity guard, eps = 1e-12 in update_animation. -/
noncomputable def eps : ℝ := 1e-12

/-- Volume of one drop in mL, self.ml_per_drop = 0.05 in TitrationAnimation. -/
noncomputable def ml_per_drop : ℝ := 0.05

/-- Flask bottom y coordinate, self.flask_bottom_y = -0.9. -/
noncomputable def flask_bottom_y : ℝ := -0.9

/-- The reaction-type selector strings of TitrationAnimation.reaction_type. -/
inductive ReactionType where
  | SA_SB
  | WA_SB
  | SA_WB
  | WA_WB
deriving DecidableEq

/-- Python math.log10: defined for positive arguments, raises otherwise. -/
noncomputable def log10 (x : ℝ) : Option ℝ :=
  if 0 < x then some (Real.logb 10 x) else none

/-- Python math.sqrt: defined for nonnegative arguments, raises otherwise. -/
noncomputable def sqrt (x : ℝ) : Option ℝ :=
  if 0 ≤ x then some (Real.sqrt x) else none

/-- The chemistry model: the block of update_animation (main.py lines
242-315) that recomputes self.ph_value when a drop arrives, as a pure
function of the reaction type, the experiment parameters and the added
base volume.  A branch that would raise ValueError in Python (log10 of a
non-positive number, sqrt of a negative number) yields none. -/
noncomputable def compute_ph (rt : ReactionType)
    (acid_molarity base_molarity acid_volume_ml added_base_ml : ℝ) : Option ℝ :=
  let acid_moles := acid_molarity * (acid_volume_ml / 1000)
  let base_moles := base_molarity * (added_base_ml / 1000)
  let total_volume_L := (acid_volume_ml + added_base_ml) / 1000
  match rt with
  | ReactionType.SA_SB =>
      if base_moles < acid_moles then
        (log10 (max ((acid_moles - base_moles) / total_volume_L) eps)).map (fun l => -l)
      else if |base_moles - acid_moles| < 1e-6 then
        some 7.0
      else
        (log10 (max ((base_moles - acid_moles) / total_volume_L) eps)).map
          (fun l => 14 - (-l))
  | ReactionType.WA_SB =>
      if base_moles < acid_moles then
        let HA := acid_moles - base_moles
        let A := base_moles
        if A < eps then
          (sqrt (Ka * acid_molarity)).bind (fun H => (log10 H).map (fun l => -l))
        else
          (log10 Ka).bind (fun lKa => (log10 (A / HA)).map (fun l => -lKa + l))
      else if |base_moles - acid_moles| < 1e-6 then
        let C := acid_moles / total_volume_L
        let Kb_eff := 1e-14 / Ka
        (sqrt (Kb_eff * C)).bind (fun OH => (log10 OH).map (fun l => 14 + l))
      else
        (log10 (max ((base_moles - acid_moles) / total_volume_L) eps)).map
          (fun l => 14 - (-l))
  | ReactionType.SA_WB =>
      if base_moles < acid_moles then
        (log10 (max ((acid_moles - base_moles) / total_volume_L) eps)).map (fun l => -l)
      else if |base_moles - acid_moles| < 1e-6 then
        let C := acid_moles / total_volume_L
        let Ka_eff := 1e-14 / Kb
        (sqrt (Ka_eff * C)).bind (fun H => (log10 H).map (fun l => -l))
      else
        let B := base_moles - acid_moles
        (sqrt (Kb * (B / total_volume_L))).bind (fun OH =>
          (log10 (max OH eps)).map (fun l => 14 - (-l)))
  | ReactionType.WA_WB =>
      if |Ka - Kb| < 1e-10 then some 7.0
      else if Kb < Ka then some 6.0
      else some 8.0

/-- A falling droplet (class Droplet in main.py): position and vertical
velocity; the acceleration is the constant -0.002. -/
structure Droplet where
  x : ℝ
  y : ℝ
  vy : ℝ

/-- Droplet.update in main.py: vy += acceleration; y += vy. -/
noncomputable def Droplet.update (d : Droplet) : Droplet :=
  { d with vy := d.vy + (-0.002), y := d.y + (d.vy + (-0.002)) }

/-- The mutable simulation state of TitrationAnimation (main.py
constructor), restricted to the fields the chemistry/state model reads
or writes.  Cosmetic fields (particles, mix_ratio, rotation, mouse
position, drop_rate) are omitted. -/
structure AnimState where
  volume_ml : ℝ
  eq_volume_ml : ℝ
  droplets : List Droplet
  liquid_level : ℝ
  burette_valve_open : Bool
  frame_count : ℕ
  ph_value : ℝ
  total_drops : ℕ
  indicator_active : Bool
  reaction_type : ReactionType
  acid_molarity : ℝ
  base_molarity : ℝ
  acid_volume_ml : ℝ

/-- The initial state set by the TitrationAnimation constructor. -/
noncomputable def init_state : AnimState where
  volume_ml := 0.0
  eq_volume_ml := 6.0
  droplets := []
  liquid_level := 0.15
  burette_valve_open := false
  frame_count := 0
  ph_value := 1.0
  total_drops := 0
  indicator_active := true
  reaction_type := ReactionType.SA_SB
  acid_molarity := 0.1
  base_molarity := 0.1
  acid_volume_ml := 50

/-- The droplet loop of update_animation (main.py lines 234-321).  The
surface height surface_y is the value computed once before the loop;
ds is the list of droplets iterated over, acc accumulates the surviving
droplets in order.  On arrival the drop counter, volume, liquid level
and pH are updated exactly as the source does; a pH computation that
raises in Python aborts the tick (none). -/
noncomputable def droplet_loop (surface_y : ℝ) :
    List Droplet → List Droplet → AnimState → Option AnimState
  | [], acc, s => some { s with droplets := acc }
  | d :: rest, acc, s =>
      let d1 := d.update
      if d1.y < surface_y then
        let drops1 := s.total_drops + 1
        let vol1 := (drops1 : ℝ) * ml_per_drop
        let level1 := min (s.liquid_level + 0.0015) 0.7
        match compute_ph s.reaction_type s.acid_molarity s.base_molarity
            s.acid_volume_ml vol1 with
        | none => none
        | some ph =>
            droplet_loop surface_y rest acc
              { s with total_drops := drops1, volume_ml := vol1,
                       liquid_level := level1, ph_value := ph }
      else
        droplet_loop surface_y rest (acc ++ [d1]) s

/-- One tick of TitrationAnimation.update_animation (main.py lines
225-329), with the Bernoulli spawn draw externalized as the boolean
spawn.  The surface height is computed once, before the droplet loop,
from the liquid level at loop entry (line 233 of the source). -/
noncomputable def update_animation (spawn : Bool) (s : AnimState) : Option AnimState :=
  let s0 := { s with frame_count := s.frame_count + 1 }
  let s1 := if s0.burette_valve_open && spawn then
              { s0 with droplets := s0.droplets ++ [{ x := 0.0, y := 0.8, vy := 0 }] }
            else s0
  let surface_y := flask_bottom_y + s1.liquid_level
  droplet_loop surface_y s1.droplets [] { s1 with droplets := [] }

/-- Iterates update_animation over a list of spawn decisions. -/
noncomputable def run_ticks : List Bool → AnimState → Option AnimState
  | [], s => some s
  | t :: ts, s =>
      match update_animation t s with
      | none => none
      | some s1 => run_ticks ts s1

/-- Variant of the droplet loop that follows the spec wording for the
crossing test: the surface height is re-read from the current liquid
level on every iteration, so an arrival earlier in the tick raises the
surface seen by later droplets of the same tick. -/
noncomputable def droplet_loop_spec :
    List Droplet → List Droplet → AnimState → Option AnimState
  | [], acc, s => some { s with droplets := acc }
  | d :: rest, acc, s =>
      let d1 := d.update
      if d1.y < flask_bottom_y + s.liquid_level then
        let drops1 := s.total_drops + 1
        let vol1 := (drops1 : ℝ) * ml_per_drop
        let level1 := min (s.liquid_level + 0.0015) 0.7
        match compute_ph s.reaction_type s.acid_molarity s.base_molarity
            s.acid_volume_ml vol1 with
        | none => none
        | some ph =>
            droplet_loop_spec rest acc
              { s with total_drops := drops1, volume_ml := vol1,
                       liquid_level := level1, ph_value := ph }
      else
        droplet_loop_spec rest (acc ++ [d1]) s

/-- Tick variant built on droplet_loop_spec (the spec wording of the
crossing test); used only to compare against the source behavior. -/
noncomputable def update_animation_spec (spawn : Bool) (s : AnimState) : Option AnimState :=
  let s0 := { s with frame_count := s.frame_count + 1 }
  let s1 := if s0.burette_valve_open && spawn then
              { s0 with droplets := s0.droplets ++ [{ x := 0.0, y := 0.8, vy := 0 }] }
            else s0
  droplet_loop_spec s1.droplets [] { s1 with droplets := [] }

/-- The droplets that survive a tick whose crossing threshold is the
fixed height sigma: every droplet is advanced one step and kept exactly
when its new y position is not below sigma. -/
noncomputable def survivors (sigma : ℝ) (ds : List Droplet) : List Droplet :=
  (ds.map Droplet.update).filter (fun d => !(decide (d.y < sigma)))

/-- The number of droplets that arrive during a tick with fixed
crossing threshold sigma. -/
noncomputable def arrivals (sigma : ℝ) (ds : List Droplet) : ℕ :=
  (ds.map Droplet.update).countP (fun d => decide (d.y < sigma))

/-- TitrationAnimation.reset_animation (main.py lines 492-500),
restricted to the modelled fields (mix_ratio and particles are
cosmetic). -/
noncomputable def reset_animation (s : AnimState) : AnimState :=
  { s with ph_value := 1.0, liquid_level := 0.15, total_drops := 0,
           volume_ml := 0.0, droplets := [], burette_valve_open := false }

/-- TitrationAnimation.set_parameters (main.py lines 481-490).  The
source performs no validation: it assigns the three parameter fields,
then computes eq_volume_ml = acid_M * acid_vol / base_M and resets.
When base_M = 0 the Python float division raises ZeroDivisionError;
the three parameter fields have already been assigned at that point,
so the error value carries the mutated state. -/
noncomputable def set_parameters (acid_M base_M acid_vol : ℝ) (s : AnimState) :
    Except AnimState AnimState :=
  let s1 := { s with acid_molarity := acid_M, base_molarity := base_M,
                     acid_volume_ml := acid_vol }
  if base_M = 0 then Except.error s1
  else Except.ok (reset_animation { s1 with eq_volume_ml := acid_M * acid_vol / base_M })

/-- TitrationAnimation.get_solution_color (main.py lines 331-344), as a
function of the two state fields it reads. -/
noncomputable def get_solution_color (indicator_active : Bool) (ph_value : ℝ) :
    ℝ × ℝ × ℝ :=
  if !indicator_active then (1.0, 1.0, 1.0)
  else if ph_value < 8.2 then (1.0, 1.0, 1.0)
  else
    let intensity := min 1.0 ((ph_value - 8.2) / 3.0)
    (1.0, 1.0 - intensity * 0.6, 1.0 - intensity * 0.3)

/-- The state of the simplified model in simulation.py. -/
structure TitrationSimulation where
  volume : ℝ
  max_volume : ℝ
  running : Bool
  finished : Bool
  data : List (ℝ × ℝ)

/-- The TitrationSimulation constructor. -/
noncomputable def TitrationSimulation.init : TitrationSimulation where
  volume := 0.0
  max_volume := 50.0
  running := false
  finished := false
  data := []

/-- TitrationSimulation.reset: re-runs the constructor. -/
noncomputable def TitrationSimulation.reset (_ : TitrationSimulation) :
    TitrationSimulation :=
  TitrationSimulation.init

/-- TitrationSimulation.compute_pH (simulation.py lines 31-35):
a logistic curve from about 2 to about 12 centered at volume 25. -/
noncomputable def TitrationSimulation.compute_pH (v : ℝ) : ℝ :=
  let x := (v - 25) / 3
  let sigmoid := 1 / (1 + Real.exp (-x))
  2 + 10 * sigmoid

/-- TitrationSimulation.update (simulation.py lines 18-29). -/
noncomputable def TitrationSimulation.update (s : TitrationSimulation) (dt : ℝ) :
    TitrationSimulation :=
  if !s.running || s.finished then s
  else
    let volume1 := s.volume + dt * 0.5
    let s1 :=
      if volume1 ≥ s.max_volume then
        { s with volume := volume1, finished := true, running := false }
      else { s with volume := volume1 }
    { s1 with data := s1.data ++ [(volume1, TitrationSimulation.compute_pH volume1)] }

/-! Helper lemmas about base-10 logarithms. -/

lemma logb_ten_zpow (n : ℤ) : Real.logb 10 ((10:ℝ) ^ n) = n := by
  rw [Real.logb, Real.log_zpow, mul_div_assoc,
    div_self (Real.log_ne_zero.mpr (by norm_num)), mul_one]

lemma eps_pos : (0:ℝ) < eps := by norm_num [eps]

lemma max_eps_pos (x : ℝ) : 0 < max x eps :=
  lt_of_lt_of_le eps_pos (le_max_right x eps)

lemma Ka_pos : (0:ℝ) < Ka := by norm_num [Ka]

lemma Kb_pos : (0:ℝ) < Kb := by norm_num [Kb]

/-! Branch-evaluation lemmas for compute_ph, one per arm of the source
conditionals, with the guard of the arm (and, where the source applies
log10 or sqrt to an unguarded expression, the positivity needed for the
call to succeed) as hypotheses. -/

lemma sa_sb_before (aM bM av added : ℝ)
    (h : bM * (added / 1000) < aM * (av / 1000)) :
    compute_ph ReactionType.SA_SB aM bM av added =
      some (-Real.logb 10
        (max ((aM * (av / 1000) - bM * (added / 1000)) / ((av + added) / 1000)) eps)) := by
  simp only [compute_ph]
  rw [if_pos h, log10, if_pos (max_eps_pos _)]
  simp

lemma sa_sb_equiv (aM bM av added : ℝ)
    (h1 : ¬ bM * (added / 1000) < aM * (av / 1000))
    (h2 : |bM * (added / 1000) - aM * (av / 1000)| < 1e-6) :
    compute_ph ReactionType.SA_SB aM bM av added = some 7.0 := by
  simp only [compute_ph]
  rw [if_neg h1, if_pos h2]

lemma sa_sb_after (aM bM av added : ℝ)
    (h1 : ¬ bM * (added / 1000) < aM * (av / 1000))
    (h2 : ¬ |bM * (added / 1000) - aM * (av / 1000)| < 1e-6) :
    compute_ph ReactionType.SA_SB aM bM av added =
      some (14 - (-Real.logb 10
        (max ((bM * (added / 1000) - aM * (av / 1000)) / ((av + added) / 1000)) eps))) := by
  simp only [compute_ph]
  rw [if_neg h1, if_neg h2, log10, if_pos (max_eps_pos _)]
  simp

lemma wa_sb_initial (aM bM av added : ℝ)
    (h : bM * (added / 1000) < aM * (av / 1000))
    (hA : bM * (added / 1000) < eps) (haM : 0 < aM) :
    compute_ph ReactionType.WA_SB aM bM av added =
      some (-Real.logb 10 (Real.sqrt (Ka * aM))) := by
  have hKaM : 0 < Ka * aM := mul_pos Ka_pos haM
  simp only [compute_ph]
  rw [if_pos h, if_pos hA]
  simp [sqrt, log10, hKaM.le, Real.sqrt_pos.mpr hKaM]

lemma wa_sb_hh (aM bM av added : ℝ)
    (h : bM * (added / 1000) < aM * (av / 1000))
    (hA : ¬ bM * (added / 1000) < eps) :
    compute_ph ReactionType.WA_SB aM bM av added =
      some (-Real.logb 10 Ka +
        Real.logb 10 ((bM * (added / 1000)) /
          (aM * (av / 1000) - bM * (added / 1000)))) := by
  have hApos : 0 < bM * (added / 1000) := lt_of_lt_of_le eps_pos (not_lt.mp hA)
  have hHApos : 0 < aM * (av / 1000) - bM * (added / 1000) := sub_pos.mpr h
  simp only [compute_ph, log10]
  rw [if_pos h, if_neg hA, if_pos Ka_pos, if_pos (div_pos hApos hHApos)]
  simp

lemma wa_sb_equiv (aM bM av added : ℝ)
    (h1 : ¬ bM * (added / 1000) < aM * (av / 1000))
    (h2 : |bM * (added / 1000) - aM * (av / 1000)| < 1e-6)
    (hC : 0 < aM * (av / 1000) / ((av + added) / 1000)) :
    compute_ph ReactionType.WA_SB aM bM av added =
      some (14 + Real.logb 10
        (Real.sqrt ((1e-14 / Ka) * (aM * (av / 1000) / ((av + added) / 1000))))) := by
  have hKb_eff : (0:ℝ) < 1e-14 / Ka := by norm_num [Ka]
  have harg : 0 < (1e-14 / Ka) * (aM * (av / 1000) / ((av + added) / 1000)) :=
    mul_pos hKb_eff hC
  simp only [compute_ph]
  rw [if_neg h1, if_pos h2]
  simp [sqrt, log10, harg.le, Real.sqrt_pos.mpr harg]

lemma wa_sb_after (aM bM av added : ℝ)
    (h1 : ¬ bM * (added / 1000) < aM * (av / 1000))
    (h2 : ¬ |bM * (added / 1000) - aM * (av / 1000)| < 1e-6) :
    compute_ph ReactionType.WA_SB aM bM av added =
      some (14 - (-Real.logb 10
        (max ((bM * (added / 1000) - aM * (av / 1000)) / ((av + added) / 1000)) eps))) := by
  simp only [compute_ph]
  rw [if_neg h1, if_neg h2, log10, if_pos (max_eps_pos _)]
  simp

lemma sa_wb_before (aM bM av added : ℝ)
    (h : bM * (added / 1000) < aM * (av / 1000)) :
    compute_ph ReactionType.SA_WB aM bM av added =
      some (-Real.logb 10
        (max ((aM * (av / 1000) - bM * (added / 1000)) / ((av + added) / 1000)) eps)) := by
  simp only [compute_ph]
  rw [if_pos h, log10, if_pos (max_eps_pos _)]
  simp

lemma sa_wb_equiv (aM bM av added : ℝ)
    (h1 : ¬ bM * (added / 1000) < aM * (av / 1000))
    (h2 : |bM * (added / 1000) - aM * (av / 1000)| < 1e-6)
    (hC : 0 < aM * (av / 1000) / ((av + added) / 1000)) :
    compute_ph ReactionType.SA_WB aM bM av added =
      some (-Real.logb 10
        (Real.sqrt ((1e-14 / Kb) * (aM * (av / 1000) / ((av + added) / 1000))))) := by
  have hKa_eff : (0:ℝ) < 1e-14 / Kb := by norm_num [Kb]
  have harg : 0 < (1e-14 / Kb) * (aM * (av / 1000) / ((av + added) / 1000)) :=
    mul_pos hKa_eff hC
  simp only [compute_ph]
  rw [if_neg h1, if_pos h2]
  simp [sqrt, log10, harg.le, Real.sqrt_pos.mpr harg]

lemma sa_wb_after (aM bM av added : ℝ)
    (h1 : ¬ bM * (added / 1000) < aM * (av / 1000))
    (h2 : ¬ |bM * (added / 1000) - aM * (av / 1000)| < 1e-6)
    (hB : 0 ≤ Kb * ((bM * (added / 1000) - aM * (av / 1000)) / ((av + added) / 1000))) :
    compute_ph ReactionType.SA_WB aM bM av added =
      some (14 - (-Real.logb 10
        (max (Real.sqrt (Kb * ((bM * (added / 1000) - aM * (av / 1000)) /
          ((av + added) / 1000)))) eps))) := by
  simp only [compute_ph]
  rw [if_neg h1, if_neg h2]
  simp [sqrt, log10, hB, max_eps_pos _]

lemma wa_wb_eval (aM bM av added : ℝ) :
    compute_ph ReactionType.WA_WB aM bM av added = some 7.0 := by
  simp only [compute_ph]
  norm_num [Ka, Kb]

/-- C1 counterexample: the source tests baseMoles less than acidMoles
before the equivalence tolerance, so at the drop-arrival state with
acidMolarity 0.1, baseMolarity 0.1, acidVolume 50.005 mL and 50 mL of
added base (1000 drops), the mole difference is within 1e-6 yet the
computed pH is the acidic-branch value, not 7.0. -/
theorem c1_counterexample :
    |(0.1 : ℝ) * (50 / 1000) - 0.1 * (50.005 / 1000)| < 1e-6 ∧
    (1000 : ℝ) * ml_per_drop = 50 ∧
    compute_ph ReactionType.SA_SB 0.1 0.1 50.005 50 ≠ some 7.0 := by
  refine ⟨by norm_num [abs_lt], by norm_num [ml_per_drop], ?_⟩
  have heval := sa_sb_before 0.1 0.1 50.005 50 (by norm_num)
  have hHval : (0.1 * (50.005 / 1000) - 0.1 * ((50:ℝ) / 1000)) / ((50.005 + 50) / 1000) =
      1 / 200010 := by norm_num
  rw [heval, max_eq_left (by norm_num [eps]), hHval]
  simp only [ne_eq, Option.some.injEq]
  have hlt : (10:ℝ) ^ (-7 : ℤ) < 1 / 200010 := by norm_num
  have h2 := Real.logb_lt_logb (b := 10) (by norm_num)
    (show (0:ℝ) < (10:ℝ) ^ (-7 : ℤ) by positivity) hlt
  rw [logb_ten_zpow] at h2
  push_cast at h2
  have h70 : (7.0 : ℝ) = 7 := by norm_num
  rw [h70]
  intro hcon
  linarith

/-- C1 amended: the branches of the StrongAcidStrongBase model are
selected in the source order: first baseMoles < acidMoles gives the
acidic formula, only then |baseMoles - acidMoles| < 1e-6 gives pH 7.0
exactly, and otherwise pH = 14 - pOH with the guarded excess-base
formula. -/
theorem c1_sa_sb_branches (aM bM av added : ℝ) :
    (bM * (added / 1000) < aM * (av / 1000) →
      compute_ph ReactionType.SA_SB aM bM av added =
        some (-Real.logb 10
          (max ((aM * (av / 1000) - bM * (added / 1000)) / ((av + added) / 1000)) eps))) ∧
    (¬ bM * (added / 1000) < aM * (av / 1000) →
      |bM * (added / 1000) - aM * (av / 1000)| < 1e-6 →
      compute_ph ReactionType.SA_SB aM bM av added = some 7.0) ∧
    (¬ bM * (added / 1000) < aM * (av / 1000) →
      ¬ |bM * (added / 1000) - aM * (av / 1000)| < 1e-6 →
      compute_ph ReactionType.SA_SB aM bM av added =
        some (14 - (-Real.logb 10
          (max ((bM * (added / 1000) - aM * (av / 1000)) / ((av + added) / 1000)) eps)))) :=
  ⟨fun h => sa_sb_before aM bM av added h,
   fun h1 h2 => sa_sb_equiv aM bM av added h1 h2,
   fun h1 h2 => sa_sb_after aM bM av added h1 h2⟩

/-- Witness for c1_sa_sb_branches: the exact equivalence input returns
pH 7.0 and a pre-equivalence input returns the acidic formula. -/
theorem c1_witness :
    (¬ (0.1 : ℝ) * (50 / 1000) < 0.1 * (50 / 1000) ∧
     |(0.1 : ℝ) * (50 / 1000) - 0.1 * (50 / 1000)| < 1e-6 ∧
     compute_ph ReactionType.SA_SB 0.1 0.1 50 50 = some 7.0) ∧
    ((0.1 : ℝ) * (5 / 1000) < 0.1 * (50 / 1000) ∧
     compute_ph ReactionType.SA_SB 0.1 0.1 50 5 =
       some (-Real.logb 10
         (max ((0.1 * (50 / 1000) - 0.1 * (5 / 1000)) / (((50:ℝ) + 5) / 1000)) eps))) :=
  ⟨⟨by norm_num, by norm_num,
    (c1_sa_sb_branches 0.1 0.1 50 50).2.1 (by norm_num) (by norm_num)⟩,
   ⟨by norm_num, (c1_sa_sb_branches 0.1 0.1 50 5).1 (by norm_num)⟩⟩

/-- C2 counterexample: the source only reaches the conjugate-base
hydrolysis formula when baseMoles is not below acidMoles.  At the
drop-arrival state with acidMolarity 0.1, baseMolarity 0.1, acidVolume
50.005 mL and 50 mL of added base the mole difference is within 1e-6,
yet the model computes the Henderson-Hasselbalch value, which differs
from the claimed 14 + log10(sqrt(Kb_eff * acidMoles / totalVolumeL)). -/
theorem c2_counterexample :
    |(0.1 : ℝ) * (50 / 1000) - 0.1 * (50.005 / 1000)| < 1e-6 ∧
    (1000 : ℝ) * ml_per_drop = 50 ∧
    compute_ph ReactionType.WA_SB 0.1 0.1 50.005 50 ≠
      some (14 + Real.logb 10 (Real.sqrt ((1e-14 / Ka) *
        ((0.1 * (50.005 / 1000)) / ((50.005 + 50) / 1000))))) := by
  refine ⟨by norm_num [abs_lt], by norm_num [ml_per_drop], ?_⟩
  have heval := wa_sb_hh 0.1 0.1 50.005 50 (by norm_num) (by norm_num [eps])
  rw [heval]
  simp only [ne_eq, Option.some.injEq]
  set q : ℝ := (1e-14 / Ka) * ((0.1 * (50.005 / 1000)) / ((50.005 + 50) / 1000)) with hqdef
  have hAHA : (0.1 : ℝ) * (50 / 1000) / (0.1 * (50.005 / 1000) - 0.1 * (50 / 1000)) =
      10000 := by norm_num
  rw [hAHA]
  have h4 : Real.logb 10 (10000 : ℝ) = 4 := by
    have h10 : (10000 : ℝ) = (10:ℝ) ^ (4 : ℤ) := by norm_num
    rw [h10, logb_ten_zpow]; norm_num
  rw [h4]
  intro hcon
  have hq : (0:ℝ) < q := by rw [hqdef]; norm_num [Ka]
  have hsq : Real.logb 10 (Real.sqrt q) = Real.logb 10 q / 2 := by
    rw [Real.logb, Real.logb, Real.log_sqrt hq.le]; ring
  rw [hsq] at hcon
  have hKa_sq : Real.logb 10 (Ka ^ 2) = 2 * Real.logb 10 Ka := by
    rw [Real.logb_pow]; norm_num
  have hmul : Real.logb 10 (Ka ^ 2 * q) = Real.logb 10 (Ka ^ 2) + Real.logb 10 q :=
    Real.logb_mul (pow_ne_zero 2 Ka_pos.ne') hq.ne'
  have hval : Real.logb 10 (Ka ^ 2 * q) = Real.logb 10 ((10:ℝ) ^ (-20 : ℤ)) := by
    rw [logb_ten_zpow, hmul, hKa_sq]
    push_cast
    linarith
  have heq : Ka ^ 2 * q = (10:ℝ) ^ (-20 : ℤ) :=
    Real.logb_injOn_pos (b := 10) (by norm_num)
      (Set.mem_Ioi.mpr (mul_pos (pow_pos Ka_pos 2) hq))
      (Set.mem_Ioi.mpr (by positivity)) hval
  rw [hqdef] at heq
  norm_num [Ka] at heq

/-- C2 amended: the WeakAcidStrongBase branches are selected in the
source order.  When baseMoles < acidMoles: if baseMoles < eps (and the
acid molarity is positive so the unguarded log succeeds) the initial
weak-acid value -log10(sqrt(Ka * acidMolarity)), otherwise the
Henderson-Hasselbalch value pKa + log10(baseMoles / (acidMoles -
baseMoles)); only when baseMoles is not below acidMoles and the mole
difference is within 1e-6 the hydrolysis value 14 + log10(sqrt(Kb_eff *
acidMoles / totalVolumeL)) (requiring a positive concentration for the
unguarded log); otherwise the guarded excess-base value. -/
theorem c2_wa_sb_branches (aM bM av added : ℝ) :
    (bM * (added / 1000) < aM * (av / 1000) →
      bM * (added / 1000) < eps → 0 < aM →
      compute_ph ReactionType.WA_SB aM bM av added =
        some (-Real.logb 10 (Real.sqrt (Ka * aM)))) ∧
    (bM * (added / 1000) < aM * (av / 1000) →
      ¬ bM * (added / 1000) < eps →
      compute_ph ReactionType.WA_SB aM bM av added =
        some (-Real.logb 10 Ka + Real.logb 10
          ((bM * (added / 1000)) / (aM * (av / 1000) - bM * (added / 1000))))) ∧
    (¬ bM * (added / 1000) < aM * (av / 1000) →
      |bM * (added / 1000) - aM * (av / 1000)| < 1e-6 →
      0 < aM * (av / 1000) / ((av + added) / 1000) →
      compute_ph ReactionType.WA_SB aM bM av added =
        some (14 + Real.logb 10 (Real.sqrt ((1e-14 / Ka) *
          (aM * (av / 1000) / ((av + added) / 1000)))))) ∧
    (¬ bM * (added / 1000) < aM * (av / 1000) →
      ¬ |bM * (added / 1000) - aM * (av / 1000)| < 1e-6 →
      compute_ph ReactionType.WA_SB aM bM av added =
        some (14 - (-Real.logb 10
          (max ((bM * (added / 1000) - aM * (av / 1000)) / ((av + added) / 1000)) eps)))) :=
  ⟨fun h hA haM => wa_sb_initial aM bM av added h hA haM,
   fun h hA => wa_sb_hh aM bM av added h hA,
   fun h1 h2 hC => wa_sb_equiv aM bM av added h1 h2 hC,
   fun h1 h2 => wa_sb_after aM bM av added h1 h2⟩

/-- Witness for c2_wa_sb_branches: the Henderson-Hasselbalch branch and
the hydrolysis branch at concrete inputs. -/
theorem c2_witness :
    ((0.1 : ℝ) * (5 / 1000) < 0.1 * (50 / 1000) ∧
     ¬ (0.1 : ℝ) * (5 / 1000) < eps ∧
     compute_ph ReactionType.WA_SB 0.1 0.1 50 5 =
       some (-Real.logb 10 Ka + Real.logb 10
         ((0.1 * (5 / 1000)) / (0.1 * ((50:ℝ) / 1000) - 0.1 * (5 / 1000))))) ∧
    (¬ (0.1 : ℝ) * (50 / 1000) < 0.1 * (50 / 1000) ∧
     |(0.1 : ℝ) * (50 / 1000) - 0.1 * (50 / 1000)| < 1e-6 ∧
     (0:ℝ) < 0.1 * (50 / 1000) / (((50:ℝ) + 50) / 1000) ∧
     compute_ph ReactionType.WA_SB 0.1 0.1 50 50 =
       some (14 + Real.logb 10 (Real.sqrt ((1e-14 / Ka) *
         (0.1 * ((50:ℝ) / 1000) / (((50:ℝ) + 50) / 1000)))))) :=
  ⟨⟨by norm_num, by norm_num [eps],
    (c2_wa_sb_branches 0.1 0.1 50 5).2.1 (by norm_num) (by norm_num [eps])⟩,
   ⟨by norm_num, by norm_num, by norm_num,
    (c2_wa_sb_branches 0.1 0.1 50 50).2.2.1 (by norm_num) (by norm_num) (by norm_num)⟩⟩

/-- The droplet list iterated over by the tick after the spawn phase:
when the valve is open and the Bernoulli draw succeeded, a new droplet
at the burette tip is appended to the current list. -/
noncomputable def post_spawn_droplets (spawn : Bool) (s : AnimState) : List Droplet :=
  if s.burette_valve_open && spawn then s.droplets ++ [{ x := 0.0, y := 0.8, vy := 0 }]
  else s.droplets

lemma droplet_loop_survivors (sigma : ℝ) (ds : List Droplet) :
    ∀ (acc : List Droplet) (s s1 : AnimState), droplet_loop sigma ds acc s = some s1 →
      s1.droplets = acc ++ survivors sigma ds ∧
      s1.total_drops = s.total_drops + arrivals sigma ds := by
  induction ds with
  | nil =>
      intro acc s s1 h
      simp only [droplet_loop, Option.some.injEq] at h
      subst h
      simp [survivors, arrivals]
  | cons d rest ih =>
      intro acc s s1 h
      simp only [droplet_loop] at h
      by_cases hcross : (Droplet.update d).y < sigma
      · rw [if_pos hcross] at h
        split at h
        · exact absurd h (by simp)
        · obtain ⟨h1, h2⟩ := ih acc _ s1 h
          refine ⟨?_, ?_⟩
          · rw [h1]
            simp [survivors, hcross]
          · rw [h2]
            simp [arrivals, hcross]
            omega
      · rw [if_neg hcross] at h
        obtain ⟨h1, h2⟩ := ih (acc ++ [d.update]) s s1 h
        refine ⟨?_, ?_⟩
        · rw [h1]
          simp [survivors, hcross]
        · rw [h2]
          simp [arrivals, hcross]

/-- A state with two in-flight droplets straddling the surface rise
caused by the first arrival of the tick: after the first droplet lands,
the liquid level rises from 0.15 to 0.1515, and the second droplet's
updated position -0.749 lies between the stale surface -0.75 and the
risen surface -0.7485.  The reaction type WeakAcidWeakBase keeps the pH
computation trivial. -/
noncomputable def cx_state : AnimState :=
  { init_state with reaction_type := ReactionType.WA_WB,
                    droplets := [{ x := 0, y := -0.76, vy := 0 },
                                 { x := 0, y := -0.747, vy := 0 }] }

/-- C3 counterexample: the crossing test of the source uses the surface
height cached before the droplet loop, not the current one.  On
cx_state the source tick registers one arrival, while the variant that
re-reads the current liquid level registers two. -/
theorem c3_counterexample :
    (update_animation false cx_state).map AnimState.total_drops = some 1 ∧
    (update_animation_spec false cx_state).map AnimState.total_drops = some 2 := by
  have hmin : min ((0.15:ℝ) + 0.0015) 0.7 = 0.1515 := by
    rw [min_eq_left (by norm_num)]
    norm_num
  constructor
  · simp only [update_animation, cx_state, init_state]
    norm_num [droplet_loop, Droplet.update, wa_wb_eval, hmin, flask_bottom_y]
  · simp only [update_animation_spec, cx_state, init_state]
    norm_num [droplet_loop_spec, Droplet.update, wa_wb_eval, hmin, flask_bottom_y]

/-- C3 amended: within one tick every droplet's crossing test compares
against the single surface height flaskBottomY + liquidLevel computed
before the droplet loop began; arrivals earlier in the same tick do not
change the threshold used for later droplets.  Consequently the
surviving droplets are exactly the advanced droplets not below that
fixed threshold, and the arrival count is the number below it. -/
theorem c3_cached_surface (spawn : Bool) (s s1 : AnimState)
    (h : update_animation spawn s = some s1) :
    s1.droplets =
      survivors (flask_bottom_y + s.liquid_level) (post_spawn_droplets spawn s) ∧
    s1.total_drops = s.total_drops +
      arrivals (flask_bottom_y + s.liquid_level) (post_spawn_droplets spawn s) := by
  simp only [update_animation] at h
  by_cases hv : (s.burette_valve_open && spawn) = true
  · rw [if_pos hv] at h
    obtain ⟨h1, h2⟩ := droplet_loop_survivors (flask_bottom_y + s.liquid_level)
      (s.droplets ++ [{ x := 0.0, y := 0.8, vy := 0 }]) [] _ s1 h
    rw [post_spawn_droplets, if_pos hv]
    exact ⟨by simpa using h1, by simpa using h2⟩
  · rw [if_neg hv] at h
    obtain ⟨h1, h2⟩ := droplet_loop_survivors (flask_bottom_y + s.liquid_level)
      s.droplets [] _ s1 h
    rw [post_spawn_droplets, if_neg hv]
    exact ⟨by simpa using h1, by simpa using h2⟩

/-- Witness for c3_cached_surface on the initial state. -/
theorem c3_witness :
    update_animation false init_state = some { init_state with frame_count := 1 } ∧
    ({ init_state with frame_count := 1 }).droplets =
      survivors (flask_bottom_y + init_state.liquid_level)
        (post_spawn_droplets false init_state) ∧
    ({ init_state with frame_count := 1 }).total_drops =
      init_state.total_drops +
        arrivals (flask_bottom_y + init_state.liquid_level)
          (post_spawn_droplets false init_state) := by
  have h : update_animation false init_state = some { init_state with frame_count := 1 } :=
    rfl
  exact ⟨h, (c3_cached_surface false init_state _ h).1,
    (c3_cached_surface false init_state _ h).2⟩

/-- C6 counterexample: not every logarithm argument is floored at eps.
The hydrolysis logarithm of the WeakAcidStrongBase equivalence branch
is unguarded, and with the parameter value acidMolarity = 0 its
argument is 0, so the Python computation raises (modelled as none): a
numeric singularity is surfaced for this parameter value. -/
theorem c6_counterexample :
    compute_ph ReactionType.WA_SB 0 0.1 50 0.005 = none := by
  simp only [compute_ph]
  rw [if_neg (by norm_num), if_pos (by norm_num [abs_lt])]
  norm_num [sqrt, log10, Real.sqrt_zero]

/-- C6 amended: the max-guarded logarithms floor their argument at eps,
and the unguarded logarithms (the WeakAcidStrongBase initial,
Henderson-Hasselbalch and hydrolysis branches and the
StrongAcidWeakBase hydrolysis branch) receive positive arguments
whenever all parameters are positive and the added volume is
nonnegative, so for such inputs the chemistry model never evaluates a
logarithm of a non-positive argument and always returns a value. -/
theorem c6_no_singularity (rt : ReactionType) (aM bM av added : ℝ)
    (haM : 0 < aM) (hbM : 0 < bM) (hav : 0 < av) (hadded : 0 ≤ added) :
    (compute_ph rt aM bM av added).isSome = true := by
  have hV : (0:ℝ) < (av + added) / 1000 := by
    apply div_pos (by linarith) (by norm_num)
  have ha : (0:ℝ) < aM * (av / 1000) :=
    mul_pos haM (div_pos hav (by norm_num))
  have hC : (0:ℝ) < aM * (av / 1000) / ((av + added) / 1000) := div_pos ha hV
  cases rt with
  | SA_SB =>
      by_cases h1 : bM * (added / 1000) < aM * (av / 1000)
      · rw [sa_sb_before aM bM av added h1]; rfl
      · by_cases h2 : |bM * (added / 1000) - aM * (av / 1000)| < 1e-6
        · rw [sa_sb_equiv aM bM av added h1 h2]; rfl
        · rw [sa_sb_after aM bM av added h1 h2]; rfl
  | WA_SB =>
      by_cases h1 : bM * (added / 1000) < aM * (av / 1000)
      · by_cases hA : bM * (added / 1000) < eps
        · rw [wa_sb_initial aM bM av added h1 hA haM]; rfl
        · rw [wa_sb_hh aM bM av added h1 hA]; rfl
      · by_cases h2 : |bM * (added / 1000) - aM * (av / 1000)| < 1e-6
        · rw [wa_sb_equiv aM bM av added h1 h2 hC]; rfl
        · rw [wa_sb_after aM bM av added h1 h2]; rfl
  | SA_WB =>
      by_cases h1 : bM * (added / 1000) < aM * (av / 1000)
      · rw [sa_wb_before aM bM av added h1]; rfl
      · by_cases h2 : |bM * (added / 1000) - aM * (av / 1000)| < 1e-6
        · rw [sa_wb_equiv aM bM av added h1 h2 hC]; rfl
        · have hB : (0:ℝ) ≤ Kb * ((bM * (added / 1000) - aM * (av / 1000)) /
              ((av + added) / 1000)) :=
            mul_nonneg Kb_pos.le
              (div_nonneg (sub_nonneg.mpr (not_lt.mp h1)) hV.le)
          rw [sa_wb_after aM bM av added h1 h2 hB]; rfl
  | WA_WB =>
      rw [wa_wb_eval]; rfl

/-- Witness for c6_no_singularity at positive concrete parameters. -/
theorem c6_witness :
    (0:ℝ) < 0.1 ∧ (0:ℝ) < 50 ∧ (0:ℝ) ≤ 0.05 ∧
    (compute_ph ReactionType.WA_SB 0.1 0.1 50 0.05).isSome = true :=
  ⟨by norm_num, by norm_num, by norm_num,
   c6_no_singularity ReactionType.WA_SB 0.1 0.1 50 0.05
     (by norm_num) (by norm_num) (by norm_num) (by norm_num)⟩

lemma droplet_loop_mono (sigma : ℝ) (ds : List Droplet) :
    ∀ (acc : List Droplet) (s s1 : AnimState), droplet_loop sigma ds acc s = some s1 →
      s.volume_ml = (s.total_drops : ℝ) * ml_per_drop →
      (s1.volume_ml = (s1.total_drops : ℝ) * ml_per_drop ∧
       s.total_drops ≤ s1.total_drops ∧ s.volume_ml ≤ s1.volume_ml) := by
  induction ds with
  | nil =>
      intro acc s s1 h hinv
      simp only [droplet_loop, Option.some.injEq] at h
      subst h
      exact ⟨hinv, le_refl _, le_refl _⟩
  | cons d rest ih =>
      intro acc s s1 h hinv
      simp only [droplet_loop] at h
      by_cases hcross : (Droplet.update d).y < sigma
      · rw [if_pos hcross] at h
        split at h
        · exact absurd h (by simp)
        · have ih2 := ih acc _ s1 h rfl
          refine ⟨ih2.1, le_trans (Nat.le_succ _) ih2.2.1, ?_⟩
          have hstep : s.volume_ml ≤ ((s.total_drops + 1 : ℕ) : ℝ) * ml_per_drop := by
            rw [hinv]
            have hc : ((s.total_drops : ℕ) : ℝ) ≤ ((s.total_drops + 1 : ℕ) : ℝ) := by
              exact_mod_cast Nat.le_succ _
            have hmp : (0:ℝ) ≤ ml_per_drop := by norm_num [ml_per_drop]
            exact mul_le_mul_of_nonneg_right hc hmp
          exact le_trans hstep ih2.2.2
      · rw [if_neg hcross] at h
        exact ih (acc ++ [d.update]) s s1 h hinv

lemma update_animation_mono (spawn : Bool) (s s1 : AnimState)
    (h : update_animation spawn s = some s1)
    (hinv : s.volume_ml = (s.total_drops : ℝ) * ml_per_drop) :
    s1.volume_ml = (s1.total_drops : ℝ) * ml_per_drop ∧
    s.total_drops ≤ s1.total_drops ∧ s.volume_ml ≤ s1.volume_ml := by
  simp only [update_animation] at h
  by_cases hv : (s.burette_valve_open && spawn) = true
  · rw [if_pos hv] at h
    have res := droplet_loop_mono _ _ [] _ s1 h (by exact hinv)
    exact res
  · rw [if_neg hv] at h
    have res := droplet_loop_mono _ _ [] _ s1 h (by exact hinv)
    exact res

/-- C9: across any sequence of ticks in one run, the drop counter and
the volume are non-decreasing, and the invariant volumeMl =
totalDropsDelivered * mlPerDrop (with mlPerDrop = 0.05) is preserved at
every observation point. -/
theorem c9_monotone (ticks : List Bool) :
    ∀ (s s1 : AnimState), s.volume_ml = (s.total_drops : ℝ) * ml_per_drop →
      run_ticks ticks s = some s1 →
      (s1.volume_ml = (s1.total_drops : ℝ) * ml_per_drop ∧
       s.total_drops ≤ s1.total_drops ∧ s.volume_ml ≤ s1.volume_ml ∧
       ml_per_drop = 0.05) := by
  induction ticks with
  | nil =>
      intro s s1 hinv h
      simp only [run_ticks, Option.some.injEq] at h
      subst h
      exact ⟨hinv, le_refl _, le_refl _, rfl⟩
  | cons t ts ih =>
      intro s s1 hinv h
      simp only [run_ticks] at h
      split at h
      · exact absurd h (by simp)
      · rename_i s2 hs2
        have h1 := update_animation_mono t s s2 hs2 hinv
        have h2 := ih s2 s1 h1.1 h
        exact ⟨h2.1, le_trans h1.2.1 h2.2.1, le_trans h1.2.2 h2.2.2.1, rfl⟩

/-- Witness for c9_monotone: one valve-closed tick from the initial
state. -/
theorem c9_witness :
    init_state.volume_ml = (init_state.total_drops : ℝ) * ml_per_drop ∧
    run_ticks [false] init_state = some { init_state with frame_count := 1 } ∧
    (({ init_state with frame_count := 1 }).volume_ml =
       (({ init_state with frame_count := 1 }).total_drops : ℝ) * ml_per_drop ∧
     init_state.total_drops ≤ ({ init_state with frame_count := 1 }).total_drops ∧
     init_state.volume_ml ≤ ({ init_state with frame_count := 1 }).volume_ml ∧
     ml_per_drop = 0.05) := by
  have hinv : init_state.volume_ml = (init_state.total_drops : ℝ) * ml_per_drop := by
    norm_num [init_state, ml_per_drop]
  have hrun : run_ticks [false] init_state =
      some { init_state with frame_count := 1 } := rfl
  exact ⟨hinv, hrun, c9_monotone [false] init_state _ hinv hrun⟩

/-- C10: with the hardcoded constants Ka = Kb = 1.8e-5, the
WeakAcidWeakBase branch returns pH 7.0 for every volume and every
parameter set; the 6.0 and 8.0 outcomes are unreachable because the
test on |Ka - Kb| always succeeds. -/
theorem c10_wa_wb_constant (aM bM av added : ℝ) :
    compute_ph ReactionType.WA_WB aM bM av added = some 7.0 ∧
    (7.0 : ℝ) ≠ 6.0 ∧ (7.0 : ℝ) ≠ 8.0 := by
  refine ⟨?_, by norm_num, by norm_num⟩
  simp only [compute_ph]
  norm_num [Ka, Kb]

/-- C7: solution color is white whenever the indicator is off or the pH
is below 8.2; otherwise it is the linear pink interpolation with
intensity min 1 ((pH - 8.2) / 3); in particular pH 8.0 is colorless and
pH 11.2 is exactly (1.0, 0.4, 0.7). -/
theorem c7_solution_color (ph : ℝ) :
    get_solution_color false ph = (1.0, 1.0, 1.0) ∧
    (ph < 8.2 → get_solution_color true ph = (1.0, 1.0, 1.0)) ∧
    (8.2 ≤ ph → get_solution_color true ph =
      (1.0, 1.0 - min 1.0 ((ph - 8.2) / 3.0) * 0.6,
            1.0 - min 1.0 ((ph - 8.2) / 3.0) * 0.3)) ∧
    get_solution_color true 8.0 = (1.0, 1.0, 1.0) ∧
    get_solution_color true 11.2 = (1.0, 0.4, 0.7) := by
  refine ⟨rfl, ?_, ?_, ?_, ?_⟩
  · intro h
    simp only [get_solution_color, Bool.not_true, Bool.false_eq_true, if_false]
    rw [if_pos h]
  · intro h
    simp only [get_solution_color, Bool.not_true, Bool.false_eq_true, if_false]
    rw [if_neg (not_lt.mpr h)]
  · simp only [get_solution_color, Bool.not_true, Bool.false_eq_true, if_false]
    rw [if_pos (by norm_num)]
  · simp only [get_solution_color, Bool.not_true, Bool.false_eq_true, if_false]
    rw [if_neg (by norm_num)]
    norm_num

/-- Witness for c7_solution_color at pH 11.2 and pH 8.0. -/
theorem c7_witness :
    ((8.2 : ℝ) ≤ 11.2 ∧ get_solution_color true 11.2 =
      (1.0, 1.0 - min 1.0 ((11.2 - 8.2) / 3.0) * 0.6,
            1.0 - min 1.0 ((11.2 - 8.2) / 3.0) * 0.3)) ∧
    ((8.0 : ℝ) < 8.2 ∧ get_solution_color true 8.0 = (1.0, 1.0, 1.0)) :=
  ⟨⟨by norm_num, (c7_solution_color 11.2).2.2.1 (by norm_num)⟩,
   ⟨by norm_num, (c7_solution_color 8.0).2.1 (by norm_num)⟩⟩

/-- C8 counterexample: at volume 25 the source model compute_pH yields
exactly 7, while the claimed logistic form with phStart 1, phRange 13
and steepness 1.8 yields 7.5 at its own center, so the claim's
constants do not describe the source formula. -/
theorem c8_counterexample :
    TitrationSimulation.compute_pH 25 = 7 ∧
    (7 : ℝ) ≠ 1 + 13 / (1 + Real.exp (-(((25 : ℝ) - 25) * 1.8))) := by
  constructor
  · simp only [TitrationSimulation.compute_pH]
    norm_num [Real.exp_zero]
  · norm_num [Real.exp_zero]

/-- C8 amended: the simplified model computes the logistic curve
pH = 2 + 10 / (1 + exp(-(v - 25) * (1/3))), i.e. phStart = 2,
phRange = 10, steepness = 1/3, centered at volume 25; consequently its
value always lies strictly between 2 and 12. -/
theorem c8_logistic_model (v : ℝ) :
    TitrationSimulation.compute_pH v = 2 + 10 / (1 + Real.exp (-((v - 25) * (1/3)))) ∧
    2 < TitrationSimulation.compute_pH v ∧
    TitrationSimulation.compute_pH v < 12 := by
  have hx : -((v - 25) * (1/3)) = -((v - 25) / 3) := by ring
  have hpos : (0:ℝ) < 1 + Real.exp (-((v - 25) / 3)) := by positivity
  have heq : TitrationSimulation.compute_pH v =
      2 + 10 / (1 + Real.exp (-((v - 25) / 3))) := by
    simp only [TitrationSimulation.compute_pH]
    rw [mul_one_div]
  refine ⟨by rw [heq, hx], ?_, ?_⟩
  · rw [heq]
    have : (0:ℝ) < 10 / (1 + Real.exp (-((v - 25) / 3))) := by positivity
    linarith
  · rw [heq]
    have hlt : 10 / (1 + Real.exp (-((v - 25) / 3))) < 10 := by
      rw [div_lt_iff₀ hpos]
      nlinarith [Real.exp_pos (-((v - 25) / 3))]
    linarith

/-- C5: reset_animation restores the drop counter, volume, pH, liquid
level and valve to their initial values on any state, and
TitrationSimulation.reset empties the sample history and zeroes the
volume. -/
theorem c5_reset_state (s : AnimState) (t : TitrationSimulation) :
    (reset_animation s).total_drops = 0 ∧
    (reset_animation s).volume_ml = 0.0 ∧
    (reset_animation s).ph_value = 1.0 ∧
    (reset_animation s).liquid_level = 0.15 ∧
    (reset_animation s).burette_valve_open = false ∧
    (reset_animation s).droplets = [] ∧
    (TitrationSimulation.reset t).data = [] ∧
    (TitrationSimulation.reset t).volume = 0.0 :=
  ⟨rfl, rfl, rfl, rfl, rfl, rfl, rfl, rfl⟩

/-- C4 counterexample: set_parameters does not validate its arguments.
With the non-positive base molarity -1 the call succeeds (no
InvalidParameter failure), and with base molarity 0 the call fails via
the division but only after the parameter fields were already
assigned, so the state is not left unchanged. -/
theorem c4_counterexample :
    ((-1 : ℝ) ≤ 0 ∧ (set_parameters 0.1 (-1) 50 init_state).isOk = true) ∧
    (set_parameters 0.1 0 50 init_state =
      Except.error { init_state with acid_molarity := 0.1, base_molarity := 0,
                                     acid_volume_ml := 50 } ∧
     ({ init_state with acid_molarity := 0.1, base_molarity := 0,
                        acid_volume_ml := 50 }).base_molarity ≠ init_state.base_molarity) := by
  refine ⟨⟨by norm_num, ?_⟩, ?_, ?_⟩
  · simp only [set_parameters]
    rw [if_neg (by norm_num)]
    rfl
  · simp [set_parameters]
  · simp only [init_state]
    norm_num

/-- C4 amended: set_parameters performs no validation.  For any
base molarity other than 0 (including negative values) it assigns the
three parameter fields, recomputes eq_volume_ml = acid_M * acid_vol /
base_M, and resets; for base molarity exactly 0 the division raises
after the three parameter fields were assigned, so the failure leaves
the state mutated. -/
theorem c4_set_parameters (acid_M base_M acid_vol : ℝ) (s : AnimState) :
    (base_M ≠ 0 → set_parameters acid_M base_M acid_vol s =
      Except.ok (reset_animation
        { s with acid_molarity := acid_M, base_molarity := base_M,
                 acid_volume_ml := acid_vol,
                 eq_volume_ml := acid_M * acid_vol / base_M })) ∧
    (base_M = 0 → set_parameters acid_M base_M acid_vol s =
      Except.error { s with acid_molarity := acid_M, base_molarity := base_M,
                            acid_volume_ml := acid_vol }) := by
  constructor
  · intro h
    simp only [set_parameters]
    rw [if_neg h]
  · intro h
    simp only [set_parameters]
    rw [if_pos h]

/-- Witness for c4_set_parameters with concrete parameters. -/
theorem c4_witness :
    (0.5 : ℝ) ≠ 0 ∧ set_parameters 0.2 0.5 30 init_state =
      Except.ok (reset_animation
        { init_state with acid_molarity := 0.2, base_molarity := 0.5,
                          acid_volume_ml := 30,
                          eq_volume_ml := 0.2 * 30 / 0.5 }) :=
  ⟨by norm_num, (c4_set_parameters 0.2 0.5 30 init_state).1 (by norm_num)⟩

end Titration
